import Mathlib

/-!
Shallow embedding of the tracking-link lifecycle of the tracking-web
repository.  The repository contains two server variants:

* a Firestore-backed server (`src/unnamed/part_001`): tracking-link
  documents carry an `active` flag; create deactivates prior active links
  for the driver, cancel and the hourly sweep set `active := false` and
  never delete documents;
* an in-memory server (`src/unnamed/part_000`): two JavaScript `Map`s
  (`trackingLinks` keyed by linkId, `driverToLinkId` keyed by driver
  name); records have no `active` flag, cancel and the sweep physically
  delete entries, and a second create while an unexpired link exists is
  rejected with HTTP 400.

Times are epoch milliseconds (`Int`).  A JavaScript `Invalid Date`
(NaN time value, as produced by `new Date(Date.now() + NaN)`) is
modelled as `none : Option Int`; every `<`/`>` comparison against it is
false, exactly as NaN comparisons are in JavaScript.
-/

/-- A driver record fetched from the upstream API.  Only the fields the
link lifecycle reads (`name` for matching, `last_updated` for the
tracking page) are modelled. -/
structure Driver where
  name : String
  last_updated : String
  deriving DecidableEq, Repr

/-- Leading decimal digits of a character list, `none` when there is no
digit (the NaN case of `parseInt`). -/
def parseIntAux (cs : List Char) : Option Nat :=
  let ds := cs.takeWhile Char.isDigit
  if ds.isEmpty then none
  else some (ds.foldl (fun acc c => acc * 10 + (c.toNat - 48)) 0)

/-- JavaScript `parseInt(s)` (radix 10): skip leading spaces, optional
sign, read leading digits, NaN (= `none`) if none.  Trailing garbage is
ignored, so `parseInt("2.5") = 2` and `parseInt("abc") = NaN`. -/
def parseIntJS (s : String) : Option Int :=
  let cs := s.data.dropWhile (fun c => c = ' ')
  match cs with
  | '-' :: rest => (parseIntAux rest).map (fun n => -(n : Int))
  | '+' :: rest => (parseIntAux rest).map (fun n => (n : Int))
  | _ => (parseIntAux cs).map (fun n => (n : Int))

/-- `expiresAt < now` on JS dates (used by `new Date() > expiresAt` and
the Firestore query `where expiresAt < now`); false when `expiresAt` is
an Invalid Date, as NaN comparisons are false. -/
def dateBefore : Option Int → Int → Bool
  | some t, now => t < now
  | none, _ => false

/-- `now < expiresAt` on JS dates (`new Date() < existing.expiresAt`);
false when `expiresAt` is an Invalid Date. -/
def dateAfter : Option Int → Int → Bool
  | some t, now => now < t
  | none, _ => false

/-- `new Date(Date.now() + parseInt(expirationHours) * 60 * 60 * 1000)`:
`none` (Invalid Date) when `parseInt` yields NaN. -/
def jsExpiry (now : Int) (expirationHours : String) : Option Int :=
  (parseIntJS expirationHours).map (fun n => now + n * 3600000)

/-- Lookup in a string-keyed map represented as an association list
(JS `Map.get` / a Firestore document read). -/
def mget {α : Type} (m : List (String × α)) (k : String) : Option α :=
  (m.find? (fun e => e.1 == k)).map (fun e => e.2)

/-- `Map.set` / Firestore `doc(k).set`: replace any entry with key `k`
and append the new entry.  Key sets and lookups agree with the mutable
map. -/
def mset {α : Type} (m : List (String × α)) (k : String) (v : α) :
    List (String × α) :=
  m.filter (fun e => e.1 != k) ++ [(k, v)]

/-- `Map.delete k`. -/
def mdel {α : Type} (m : List (String × α)) (k : String) :
    List (String × α) :=
  m.filter (fun e => e.1 != k)

namespace Firestore

/-- A document of the `trackingLinks` collection
(`src/unnamed/part_001` lines 117-123). -/
structure TrackingLink where
  driverName : String
  createdAt : Int
  expiresAt : Option Int
  createdBy : String
  active : Bool
  deriving DecidableEq, Repr

/-- The `trackingLinks` collection: documents keyed by linkId. -/
abbrev Store := List (String × TrackingLink)

/-- The mock fallback dataset of `src/unnamed/part_001` lines 45-59
(only the modelled fields). -/
def mockDrivers : List Driver :=
  [⟨"Albert Davis (Demo)", "2025-07-15T17:55:04.913055887Z"⟩]

/-- `fetchDriversFromAPI` (`part_001` lines 31-61): on success the
fetched array is returned; any failure (timeout, non-ok status,
non-array body) is caught and the mock dataset is returned.
`upstream = none` models any such failure. -/
def fetchDriversFromAPI (upstream : Option (List Driver)) : List Driver :=
  match upstream with
  | some drivers => drivers
  | none => mockDrivers

/-- Read the document with the given linkId. -/
def lookupDoc (st : Store) (linkId : String) : Option TrackingLink :=
  mget st linkId

/-- `db.collection('trackingLinks').doc(linkId).set(...)`. -/
def setDoc (st : Store) (linkId : String) (rec : TrackingLink) : Store :=
  mset st linkId rec

/-- `doc.ref.update({ active: false })`. -/
def deactivate (r : TrackingLink) : TrackingLink :=
  { r with active := false }

/-- Effect on one document of the loop over the query
`where driverName == name, active == true` followed by
`update({active:false})`: matching documents are deactivated, all
others are untouched. -/
def deactEntry (name : String) (r : TrackingLink) : TrackingLink :=
  if r.driverName == name && r.active then deactivate r else r

/-- The invalidate-old-links loop of `/generate-link`
(`part_001` lines 104-112), and the deactivation loop of
`/cancel-link`. -/
def deactivateFor (st : Store) (name : String) : Store :=
  st.map (fun e => (e.1, deactEntry name e.2))

/-- Number of documents matching the query
`where driverName == name, active == true`. -/
def countActive (st : Store) (name : String) : Nat :=
  (st.filter (fun e => e.2.driverName == name && e.2.active)).length

/-- Responses of `POST /generate-link` (`part_001` lines 95-133). -/
inductive GenResponse where
  /-- 400 `Missing fields` -/
  | missingFields
  /-- 404 `Driver not found` -/
  | driverNotFound
  /-- 200 `{success, trackingUrl, expiresAt, driverName}` -/
  | success (trackingUrl : String) (expiresAtMs : Int) (driverName : String)
  /-- 500 `Failed to generate tracking link` (the catch branch) -/
  | serverError
  deriving DecidableEq, Repr

/-- The tracking URL embedded in responses; the `protocol://host` prefix
comes from request metadata and is elided. -/
def trackingUrl (linkId : String) : String := "/track/" ++ linkId

/-- `POST /generate-link` (`part_001` lines 95-133).  `driverName` and
`expirationHours` are the request-body fields (`""` models a missing or
empty, i.e. falsy, field), `upstream` the state of the driver API,
`linkId` the generated uuid, `user` the session user.  Note that the
store is mutated (deactivation and insertion) before the response is
serialized: `expirationTime.toISOString()` throws on an Invalid Date,
landing in the catch branch (500) with the store already updated. -/
def generateLink (st : Store) (driverName expirationHours : String)
    (upstream : Option (List Driver)) (now : Int) (linkId user : String) :
    GenResponse × Store :=
  if driverName == "" || expirationHours == "" then (.missingFields, st)
  else
    match (fetchDriversFromAPI upstream).find? (fun d => d.name == driverName) with
    | none => (.driverNotFound, st)
    | some _selectedDriver =>
      let st₁ := deactivateFor st driverName
      let expirationTime := jsExpiry now expirationHours
      let st₂ := setDoc st₁ linkId
        ⟨driverName, now, expirationTime, user, true⟩
      match expirationTime with
      | some t => (.success (trackingUrl linkId) t driverName, st₂)
      | none => (.serverError, st₂)

/-- Responses of `POST /cancel-link` (`part_001` lines 136-151). -/
inductive CancelResponse where
  /-- 404 `No active tracking link` -/
  | notFound
  /-- 200 `{success: true}` -/
  | success
  deriving DecidableEq, Repr

/-- HTTP status of a cancel response. -/
def cancelStatus : CancelResponse → Nat
  | .notFound => 404
  | .success => 200

/-- `POST /cancel-link` (`part_001` lines 136-151): query the active
links of the driver; 404 when the snapshot is empty, otherwise set
`active := false` on each and report success. -/
def cancelLink (st : Store) (driverName : String) : CancelResponse × Store :=
  let snapshot := st.filter (fun e => e.2.driverName == driverName && e.2.active)
  if snapshot.isEmpty then (.notFound, st)
  else (.success, deactivateFor st driverName)

/-- Outcomes of `GET /track/:linkId` (`part_001` lines 154-182). -/
inductive PageResponse where
  /-- 403 `Invalid or expired link` -/
  | invalidLink
  /-- 403 `Link expired or inactive` -/
  | expiredOrInactive
  /-- rendered error `Driver data missing` -/
  | driverDataMissing
  /-- rendered tracking page -/
  | okPage (d : Driver) (expiresAt : Option Int)
  deriving DecidableEq, Repr

/-- `GET /track/:linkId` (`part_001` lines 154-182).  The guard is
`!link.active || new Date() > link.expiresAt.toDate()`. -/
def trackPage (st : Store) (linkId : String) (now : Int)
    (upstream : Option (List Driver)) : PageResponse :=
  match lookupDoc st linkId with
  | none => .invalidLink
  | some link =>
    if !link.active || dateBefore link.expiresAt now then .expiredOrInactive
    else
      match (fetchDriversFromAPI upstream).find? (fun d => d.name == link.driverName) with
      | none => .driverDataMissing
      | some d => .okPage d link.expiresAt

/-- Outcomes of `GET /api/track/:id` (`part_001` lines 185-199). -/
inductive ApiResponse where
  /-- 404 `Invalid link` -/
  | invalidLink
  /-- 404 `Expired link` -/
  | expiredLink
  /-- 404 `Driver not found` -/
  | driverNotFound
  /-- 200 `{driver, expiresAt}` -/
  | ok (d : Driver) (expiresAt : Option Int)
  deriving DecidableEq, Repr

/-- `GET /api/track/:id` (`part_001` lines 185-199).  Unlike the page
handler, the guard checks only `new Date() > link.expiresAt.toDate()`;
the `active` flag is never consulted. -/
def apiTrack (st : Store) (linkId : String) (now : Int)
    (upstream : Option (List Driver)) : ApiResponse :=
  match lookupDoc st linkId with
  | none => .invalidLink
  | some link =>
    if dateBefore link.expiresAt now then .expiredLink
    else
      match (fetchDriversFromAPI upstream).find? (fun d => d.name == link.driverName) with
      | none => .driverNotFound
      | some d => .ok d link.expiresAt

/-- Effect of the hourly sweep on one document: the query selects
`where expiresAt < now, active == true` and the loop sets
`active := false` on each selected document. -/
def sweepEntry (now : Int) (r : TrackingLink) : TrackingLink :=
  if r.active && dateBefore r.expiresAt now then deactivate r else r

/-- The hourly cleanup interval of `part_001` lines 207-218. -/
def sweepExpiredLinks (now : Int) (st : Store) : Store :=
  st.map (fun e => (e.1, sweepEntry now e.2))

/-- One controller operation of the Firestore variant, with all the
request/environment data it consumes. -/
inductive Op where
  | create (driverName expirationHours : String)
      (upstream : Option (List Driver)) (now : Int) (linkId user : String)
  | cancel (driverName : String)
  | sweep (now : Int)

/-- The store after one operation. -/
def applyOp (st : Store) : Op → Store
  | .create dn eh u now lid usr => (generateLink st dn eh u now lid usr).2
  | .cancel dn => (cancelLink st dn).2
  | .sweep now => sweepExpiredLinks now st

/-- The store after a sequence of sequentially executed operations. -/
def runOps (st : Store) : List Op → Store
  | [] => st
  | op :: ops => runOps (applyOp st op) ops

end Firestore

namespace InMemory

/-- A value of the in-memory `trackingLinks` map
(`src/unnamed/part_000` lines 208-213); there is no `active` field. -/
structure MemLink where
  driverName : String
  createdAt : Int
  expiresAt : Option Int
  createdBy : String
  deriving DecidableEq, Repr

/-- The two in-memory maps of `part_000` lines 12-13. -/
structure MemState where
  trackingLinks : List (String × MemLink)
  driverToLinkId : List (String × String)
  deriving DecidableEq, Repr

/-- The mock fallback dataset of `part_000` lines 87-114
(only the modelled fields). -/
def mockDrivers : List Driver :=
  [⟨"Albert Davis (Demo)", "2025-07-15T17:55:04.913055887Z"⟩,
   ⟨"Sarah Johnson (Demo)", "2025-07-15T18:30:04.913055887Z"⟩]

/-- `fetchDriversFromAPI` (`part_000` lines 45-116): any failure is
caught and the mock dataset is returned; the per-driver field check
only warns and never rejects. -/
def fetchDriversFromAPI (upstream : Option (List Driver)) : List Driver :=
  match upstream with
  | some drivers => drivers
  | none => mockDrivers

/-- Responses of the in-memory `POST /generate-link`
(`part_000` lines 172-229). -/
inductive GenResponse where
  /-- 400 `Driver name and expiration time are required` -/
  | missingFields
  /-- 404 `Driver not found` -/
  | driverNotFound
  /-- 400 `Tracking link already exists for this driver`, with the
  existing link URL and its expiration -/
  | alreadyExists (existingLink : String) (expiresAtMs : Int)
  /-- 200 `{success, trackingUrl, expiresAt, driverName}` -/
  | success (trackingUrl : String) (expiresAtMs : Int) (driverName : String)
  /-- 500 `Failed to generate tracking link` (the catch branch) -/
  | serverError
  deriving DecidableEq, Repr

/-- The tracking URL embedded in responses; the `protocol://host` prefix
comes from request metadata and is elided. -/
def trackingUrl (linkId : String) : String := "/track/" ++ linkId

/-- Lines 204-223 of `part_000`: store the new link in both maps, then
serialize the response.  `expirationTime.toISOString()` throws on an
Invalid Date, so the catch branch answers 500 with the maps already
mutated.  The record stores `selectedDriver.name` (`recName`) while the
`driverToLinkId` key is the request's `driverName` (`mapKey`); the two
are equal because the driver was found by name equality. -/
def insertNew (st : MemState) (recName mapKey : String) (now : Int)
    (linkId user : String) (expirationHours : String) :
    GenResponse × MemState :=
  let expirationTime := jsExpiry now expirationHours
  let st' : MemState :=
    ⟨mset st.trackingLinks linkId ⟨recName, now, expirationTime, user⟩,
     mset st.driverToLinkId mapKey linkId⟩
  match expirationTime with
  | some t => (.success (trackingUrl linkId) t recName, st')
  | none => (.serverError, st')

/-- `POST /generate-link` of the in-memory variant (`part_000` lines
172-229).  If `driverToLinkId` holds a truthy linkId for the driver and
that link exists and is unexpired (`new Date() < existing.expiresAt`),
the request is rejected with 400; otherwise the stale entries are
deleted and a new link is stored. -/
def generateLink (st : MemState) (driverName expirationHours : String)
    (upstream : Option (List Driver)) (now : Int) (linkId user : String) :
    GenResponse × MemState :=
  if driverName == "" || expirationHours == "" then (.missingFields, st)
  else
    match (fetchDriversFromAPI upstream).find? (fun d => d.name == driverName) with
    | none => (.driverNotFound, st)
    | some selectedDriver =>
      match mget st.driverToLinkId driverName with
      | some existingLinkId =>
        if existingLinkId == "" then
          -- a falsy stored linkId skips the whole existing-link block
          insertNew st selectedDriver.name driverName now linkId user expirationHours
        else
          match mget st.trackingLinks existingLinkId with
          | some existing =>
            match existing.expiresAt with
            | some t =>
              if now < t then
                (.alreadyExists (trackingUrl existingLinkId) t, st)
              else
                insertNew
                  ⟨mdel st.trackingLinks existingLinkId,
                   mdel st.driverToLinkId driverName⟩
                  selectedDriver.name driverName now linkId user expirationHours
            | none =>
              -- Invalid stored date: `new Date() < expiresAt` is false
              insertNew
                ⟨mdel st.trackingLinks existingLinkId,
                 mdel st.driverToLinkId driverName⟩
                selectedDriver.name driverName now linkId user expirationHours
          | none =>
            insertNew
              ⟨mdel st.trackingLinks existingLinkId,
               mdel st.driverToLinkId driverName⟩
              selectedDriver.name driverName now linkId user expirationHours
      | none =>
        insertNew st selectedDriver.name driverName now linkId user expirationHours

/-- Responses of the in-memory `POST /cancel-link`
(`part_000` lines 233-246). -/
inductive CancelResponse where
  /-- 404 `No active tracking link found for this driver` -/
  | notFound
  /-- 200 `{success: true}` -/
  | success
  deriving DecidableEq, Repr

/-- HTTP status of an in-memory cancel response. -/
def cancelStatus : CancelResponse → Nat
  | .notFound => 404
  | .success => 200

/-- `POST /cancel-link` of the in-memory variant (`part_000` lines
233-246): 404 when `driverToLinkId` has no truthy linkId for the driver
or `trackingLinks` lacks that id; otherwise both entries are deleted. -/
def cancelLink (st : MemState) (driverName : String) :
    CancelResponse × MemState :=
  match mget st.driverToLinkId driverName with
  | none => (.notFound, st)
  | some linkId =>
    if linkId == "" then (.notFound, st)
    else if (mget st.trackingLinks linkId).isNone then (.notFound, st)
    else
      (.success,
       ⟨mdel st.trackingLinks linkId, mdel st.driverToLinkId driverName⟩)

/-- The hourly cleanup interval of `part_000` lines 337-346: every
entry with `now > expiresAt` is deleted from `trackingLinks`, and its
`driverName` key is deleted from `driverToLinkId`. -/
def sweepExpiredLinks (now : Int) (st : MemState) : MemState :=
  let expired := st.trackingLinks.filter (fun e => dateBefore e.2.expiresAt now)
  ⟨st.trackingLinks.filter (fun e => !(dateBefore e.2.expiresAt now)),
   st.driverToLinkId.filter
     (fun p => !(expired.any (fun e => e.2.driverName == p.1)))⟩

/-- Outcomes of the in-memory `GET /track/:id`
(`part_000` lines 251-296). -/
inductive TrackRender where
  /-- render `Invalid tracking link` -/
  | invalidLink
  /-- render `This tracking link has expired` -/
  | expiredLink
  /-- render `Driver data not available` -/
  | driverDataNotAvailable
  /-- render the tracking page -/
  | okPage (d : Driver)
  /-- render `Unable to fetch current driver location` (catch branch) -/
  | unableToFetch
  deriving DecidableEq, Repr

/-- `driver.last_updated` where `driver` may be `undefined`
(`part_000` line 273): a TypeError is thrown when there is no
driver. -/
def jsLastUpdated : Option Driver → Except Unit String
  | none => .error ()
  | some d => .ok d.last_updated

/-- The try block of `part_000` lines 270-288, in source order: find
the driver, evaluate `driver.last_updated`, only then test
`if (!driver)`, then render the page. -/
def trackTryBlock (drivers : List Driver) (name : String) :
    Except Unit TrackRender :=
  let driver := drivers.find? (fun d => d.name == name)
  match jsLastUpdated driver with
  | .error e => .error e
  | .ok _formatted =>
    match driver with
    | none => .ok .driverDataNotAvailable
    | some d => .ok (.okPage d)

/-- `GET /track/:id` of the in-memory variant (`part_000` lines
251-296).  A thrown TypeError in the try block lands in the catch
branch. -/
def trackPage (st : MemState) (linkId : String) (now : Int)
    (upstream : Option (List Driver)) : TrackRender :=
  match mget st.trackingLinks linkId with
  | none => .invalidLink
  | some linkData =>
    if dateBefore linkData.expiresAt now then .expiredLink
    else
      match trackTryBlock (fetchDriversFromAPI upstream) linkData.driverName with
      | .ok r => r
      | .error _ => .unableToFetch

end InMemory

/-! Concrete states used by witnesses and counterexamples. -/

/-- A stored Firestore link that was cancelled (`active = false`) but
whose `expiresAt` (1000 ms) is still in the future at time 500. -/
def cancelledLink : Firestore.TrackingLink :=
  ⟨"Albert Davis (Demo)", 0, some 1000, "admin", false⟩

/-- A one-document store holding `cancelledLink` under id `"L"`. -/
def cancelledStore : Firestore.Store := [("L", cancelledLink)]

/-- The sweep scenario of the spec: two expired active records and one
unexpired active record (observed at time 50). -/
def sweepScenario : Firestore.Store :=
  [("A", ⟨"d1", 0, some 10, "u", true⟩),
   ("B", ⟨"d2", 0, some 20, "u", true⟩),
   ("C", ⟨"d3", 0, some 99999, "u", true⟩)]

/-- A store with two active records for driver `"dup"` (the race-window
shape the cancel operation must tolerate) and one for another driver. -/
def dupStore : Firestore.Store :=
  [("A", ⟨"dup", 0, some 10, "u", true⟩),
   ("B", ⟨"dup", 0, some 20, "u", true⟩),
   ("C", ⟨"other", 0, some 20, "u", true⟩)]

/-- In-memory state with one stored, unexpired link for `"Jane Doe"`. -/
def janeState : InMemory.MemState :=
  ⟨[("L1", ⟨"Jane Doe", 0, some 3600000, "admin"⟩)], [("Jane Doe", "L1")]⟩

/-- In-memory state with a valid, unexpired link for a driver that the
upstream API no longer returns. -/
def ghostState : InMemory.MemState :=
  ⟨[("L1", ⟨"Ghost Driver", 0, some 100, "admin"⟩)], [("Ghost Driver", "L1")]⟩

/-- First sequential in-memory create for the mock demo driver. -/
def memFirstCreate : InMemory.GenResponse × InMemory.MemState :=
  InMemory.generateLink ⟨[], []⟩ "Albert Davis (Demo)" "1" none 0 "L1" "admin"

/-- Second sequential in-memory create for the same driver, 1000 ms
later, well before the first link's expiry. -/
def memSecondCreate : InMemory.GenResponse × InMemory.MemState :=
  InMemory.generateLink memFirstCreate.2 "Albert Davis (Demo)" "1" none 1000 "L2" "admin"

/-! General lemmas about the association-list maps. -/

/-- `find?` commutes with a `filter` whose predicate is implied by the
search predicate. -/
theorem find?_filter_of_imp {α : Type} (l : List α) (p q : α → Bool)
    (h : ∀ e, p e = true → q e = true) :
    (l.filter q).find? p = l.find? p := by
  induction l with
  | nil => rfl
  | cons x xs ih =>
    cases hq : q x with
    | true =>
      cases hp : p x with
      | true => simp [List.filter_cons, hq, List.find?, hp]
      | false => simp [List.filter_cons, hq, List.find?, hp, ih]
    | false =>
      have hp : p x = false := by
        cases hp : p x with
        | true => exact absurd (h x hp) (by simp [hq])
        | false => rfl
      simp [List.filter_cons, hq, List.find?, hp, ih]

/-- Reading back the key just written. -/
theorem mget_mset_self {α : Type} (m : List (String × α)) (k : String) (v : α) :
    mget (mset m k v) k = some v := by
  have h : (m.filter (fun e => e.1 != k)).find? (fun e => e.1 == k) = none := by
    rw [List.find?_eq_none]
    intro x hx
    have hx2 := (List.mem_filter.mp hx).2
    simp only [bne_iff_ne, ne_eq] at hx2
    simp [hx2]
  simp [mget, mset, List.find?_append, h, List.find?]

/-- Writing one key leaves every other key's lookup unchanged. -/
theorem mget_mset_other {α : Type} (m : List (String × α)) (k k' : String)
    (v : α) (h : k' ≠ k) : mget (mset m k v) k' = mget m k' := by
  unfold mget mset
  rw [List.find?_append]
  rw [find?_filter_of_imp m (fun e => e.1 == k') (fun e => e.1 != k)
    (by intro e he; simp only [beq_iff_eq] at he; simp [he, h])]
  have h2 : ([((k, v) : String × α)].find? (fun e => e.1 == k')) = none := by
    have hkk : (k == k') = false := by
      simp [Ne.symm h]
    simp [List.find?, hkk]
  rw [h2]
  cases m.find? (fun e => e.1 == k') <;> rfl

/-- Deleting a key makes its lookup `none`. -/
theorem mget_mdel_self {α : Type} (m : List (String × α)) (k : String) :
    mget (mdel m k) k = none := by
  have h : (m.filter (fun e => e.1 != k)).find? (fun e => e.1 == k) = none := by
    rw [List.find?_eq_none]
    intro x hx
    have hx2 := (List.mem_filter.mp hx).2
    simp only [bne_iff_ne, ne_eq] at hx2
    simp [hx2]
  simp [mget, mdel, h]

/-- Lookup through a value-only map transformation. -/
theorem mget_map_value {α β : Type} (m : List (String × α)) (g : α → β)
    (k : String) :
    mget (m.map (fun e => (e.1, g e.2))) k = (mget m k).map g := by
  induction m with
  | nil => rfl
  | cons e tl ih =>
    cases hk : (e.1 == k) with
    | true => simp [mget, List.find?, hk]
    | false =>
      simp only [mget, List.map_cons, List.find?, hk] at ih ⊢
      exact ih

/-- Filtering with a pointwise-stronger predicate keeps no more
elements. -/
theorem length_filter_le_of_imp {α : Type} (l : List α) (p q : α → Bool)
    (h : ∀ a, p a = true → q a = true) :
    (l.filter p).length ≤ (l.filter q).length := by
  induction l with
  | nil => simp
  | cons x xs ih =>
    cases hp : p x with
    | true =>
      have hq := h x hp
      simpa [List.filter_cons, hp, hq] using Nat.succ_le_succ ih
    | false =>
      cases hq : q x with
      | true =>
        simp only [List.filter_cons, hp, hq, if_pos, if_neg, Bool.false_eq_true,
          ite_false, ite_true, List.length_cons]
        omega
      | false => simpa [List.filter_cons, hp, hq] using ih

/-! Counting lemmas for the Firestore store. -/

/-- After the deactivation loop for `name`, no active record for `name`
remains. -/
theorem countActive_deactivateFor_self (st : Firestore.Store) (name : String) :
    Firestore.countActive (Firestore.deactivateFor st name) name = 0 := by
  unfold Firestore.countActive Firestore.deactivateFor
  rw [List.filter_map]
  have h : ∀ e ∈ st,
      ((fun e => e.2.driverName == name && e.2.active) ∘
        (fun e : String × Firestore.TrackingLink =>
          (e.1, Firestore.deactEntry name e.2))) e = (fun _ => false) e := by
    intro e _
    simp only [Function.comp]
    unfold Firestore.deactEntry
    cases hb : (e.2.driverName == name && e.2.active) with
    | true => simp [hb, Firestore.deactivate]
    | false => simp [hb]
  rw [List.filter_congr h]
  simp

/-- The deactivation loop for `name` does not change the active count
of any other driver. -/
theorem countActive_deactivateFor_other (st : Firestore.Store)
    (name m : String) (h : m ≠ name) :
    Firestore.countActive (Firestore.deactivateFor st name) m =
      Firestore.countActive st m := by
  unfold Firestore.countActive Firestore.deactivateFor
  rw [List.filter_map]
  have hc : ∀ e ∈ st,
      ((fun e => e.2.driverName == m && e.2.active) ∘
        (fun e : String × Firestore.TrackingLink =>
          (e.1, Firestore.deactEntry name e.2))) e =
      (fun e : String × Firestore.TrackingLink =>
        e.2.driverName == m && e.2.active) e := by
    intro e _
    simp only [Function.comp]
    unfold Firestore.deactEntry
    cases hb : (e.2.driverName == name && e.2.active) with
    | true =>
      have hdn : e.2.driverName = name := by
        have := (Bool.and_eq_true _ _).mp hb
        exact beq_iff_eq.mp this.1
      simp [hb, Firestore.deactivate, hdn, Ne.symm h]
    | false => simp [hb]
  rw [List.filter_congr hc, List.length_map]

/-- A value-only conditional-deactivation map never increases an active
count. -/
theorem countActive_map_le (st : Firestore.Store)
    (g : Firestore.TrackingLink → Firestore.TrackingLink)
    (hname : ∀ r, (g r).driverName = r.driverName)
    (hact : ∀ r, (g r).active = true → r.active = true) (m : String) :
    Firestore.countActive (st.map (fun e => (e.1, g e.2))) m ≤
      Firestore.countActive st m := by
  unfold Firestore.countActive
  rw [List.filter_map, List.length_map]
  apply length_filter_le_of_imp
  intro a ha
  simp only [Function.comp] at ha
  have ⟨h1, h2⟩ := (Bool.and_eq_true _ _).mp ha
  rw [hname] at h1
  exact (Bool.and_eq_true _ _).mpr ⟨h1, hact _ h2⟩

/-- Active counts through a `doc(lid).set rec`. -/
theorem countActive_mset (st : Firestore.Store) (lid : String)
    (rec : Firestore.TrackingLink) (m : String) :
    Firestore.countActive (mset st lid rec) m =
      Firestore.countActive (st.filter (fun e => e.1 != lid)) m +
        (if rec.driverName == m && rec.active then 1 else 0) := by
  unfold Firestore.countActive mset
  rw [List.filter_append, List.length_append]
  congr 1
  cases hb : (rec.driverName == m && rec.active) <;> simp [List.filter, hb]

/-- Filtering the store never increases an active count. -/
theorem countActive_filter_le (st : Firestore.Store)
    (q : String × Firestore.TrackingLink → Bool) (m : String) :
    Firestore.countActive (st.filter q) m ≤ Firestore.countActive st m := by
  unfold Firestore.countActive
  exact (List.Sublist.filter _ (List.filter_sublist st)).length_le

/-- Lookup through the deactivation loop. -/
theorem mget_deactivateFor (st : Firestore.Store) (name id : String) :
    mget (Firestore.deactivateFor st name) id =
      (mget st id).map (Firestore.deactEntry name) := by
  unfold Firestore.deactivateFor
  exact mget_map_value st (Firestore.deactEntry name) id

/-! Store effects of the Firestore handlers. -/

/-- `/generate-link` either leaves the store unchanged (validation or
driver-not-found failure) or deactivates the driver's active links and
writes the fresh document — also on the 500 path, where the response
serialization throws after the store writes. -/
theorem generateLink_store_cases (st : Firestore.Store)
    (dn eh : String) (u : Option (List Driver)) (now : Int)
    (lid usr : String) :
    (Firestore.generateLink st dn eh u now lid usr).2 = st ∨
    (Firestore.generateLink st dn eh u now lid usr).2 =
      Firestore.setDoc (Firestore.deactivateFor st dn) lid
        ⟨dn, now, jsExpiry now eh, usr, true⟩ := by
  unfold Firestore.generateLink
  cases h1 : (dn == "" || eh == "") with
  | true => simp [h1]
  | false =>
    simp only [h1, Bool.false_eq_true, if_false]
    cases hf : (Firestore.fetchDriversFromAPI u).find? (fun d => d.name == dn) with
    | none => simp
    | some d =>
      cases he : jsExpiry now eh <;> simp [he]

/-- `/cancel-link` either leaves the store unchanged (404) or runs the
deactivation loop. -/
theorem cancelLink_store_cases (st : Firestore.Store) (dn : String) :
    (Firestore.cancelLink st dn).2 = st ∨
    (Firestore.cancelLink st dn).2 = Firestore.deactivateFor st dn := by
  unfold Firestore.cancelLink
  cases h : (st.filter
      (fun e => e.2.driverName == dn && e.2.active)).isEmpty <;> simp [h]

/-- Each controller operation preserves the at-most-one-active-link
invariant. -/
theorem applyOp_preserves (op : Firestore.Op) (st : Firestore.Store)
    (h : ∀ n, Firestore.countActive st n ≤ 1) (n : String) :
    Firestore.countActive (Firestore.applyOp st op) n ≤ 1 := by
  cases op with
  | create dn eh u now lid usr =>
    show Firestore.countActive (Firestore.generateLink st dn eh u now lid usr).2 n ≤ 1
    rcases generateLink_store_cases st dn eh u now lid usr with hs | hs
    · rw [hs]; exact h n
    · rw [hs]
      unfold Firestore.setDoc
      rw [countActive_mset]
      by_cases hn : n = dn
      · subst hn
        have h0 := countActive_deactivateFor_self st n
        have hle := countActive_filter_le (Firestore.deactivateFor st n)
          (fun e => e.1 != lid) n
        rw [h0] at hle
        simp only [Nat.le_zero] at hle
        rw [hle]
        simp
      · have hb : ((⟨dn, now, jsExpiry now eh, usr, true⟩ :
            Firestore.TrackingLink).driverName == n && true) = false := by
          simp [Ne.symm hn]
        simp only [hb]
        have hle := countActive_filter_le (Firestore.deactivateFor st dn)
          (fun e => e.1 != lid) n
        rw [countActive_deactivateFor_other st dn n hn] at hle
        simpa using le_trans hle (h n)
  | cancel dn =>
    show Firestore.countActive (Firestore.cancelLink st dn).2 n ≤ 1
    rcases cancelLink_store_cases st dn with hs | hs
    · rw [hs]; exact h n
    · rw [hs]
      unfold Firestore.deactivateFor
      refine le_trans (countActive_map_le st (Firestore.deactEntry dn) ?_ ?_ n) (h n)
      · intro r
        unfold Firestore.deactEntry
        cases hb : (r.driverName == dn && r.active) <;>
          simp [hb, Firestore.deactivate]
      · intro r
        unfold Firestore.deactEntry
        cases hb : (r.driverName == dn && r.active) <;>
          simp [hb, Firestore.deactivate]
  | sweep now =>
    show Firestore.countActive (Firestore.sweepExpiredLinks now st) n ≤ 1
    unfold Firestore.sweepExpiredLinks
    refine le_trans (countActive_map_le st (Firestore.sweepEntry now) ?_ ?_ n) (h n)
    · intro r
      unfold Firestore.sweepEntry
      cases hb : (r.active && dateBefore r.expiresAt now) <;>
        simp [hb, Firestore.deactivate]
    · intro r
      unfold Firestore.sweepEntry
      cases hb : (r.active && dateBefore r.expiresAt now) <;>
        simp [hb, Firestore.deactivate]

/-- The invariant is preserved along any sequence of operations. -/
theorem runOps_preserves (ops : List Firestore.Op) (st : Firestore.Store)
    (h : ∀ n, Firestore.countActive st n ≤ 1) (n : String) :
    Firestore.countActive (Firestore.runOps st ops) n ≤ 1 := by
  induction ops generalizing st with
  | nil => exact h n
  | cons op ops ih =>
    exact ih (Firestore.applyOp st op) (applyOp_preserves op st h)

/-- C1: for every driver name, after any sequence of sequentially
executed createLink, cancelLink, and sweepExpiredLinks operations
starting from the empty store, at most one stored TrackingLink for that
driver has `active = true`. -/
theorem c1_at_most_one_active_per_driver (ops : List Firestore.Op)
    (name : String) :
    Firestore.countActive (Firestore.runOps [] ops) name ≤ 1 :=
  runOps_preserves ops []
    (fun n => by simp [Firestore.countActive, List.filter]) name

/-! Computation lemmas for the two create handlers. -/

/-- The Firestore `/generate-link` on the all-valid path: response and
resulting store. -/
theorem generateLink_success (st : Firestore.Store) (dn eh : String)
    (u : Option (List Driver)) (now : Int) (lid usr : String)
    (d : Driver) (n : Int) (hdn : dn ≠ "") (heh : eh ≠ "")
    (hf : (Firestore.fetchDriversFromAPI u).find? (fun x => x.name == dn) = some d)
    (hp : parseIntJS eh = some n) :
    Firestore.generateLink st dn eh u now lid usr =
      (.success (Firestore.trackingUrl lid) (now + n * 3600000) dn,
       Firestore.setDoc (Firestore.deactivateFor st dn) lid
         ⟨dn, now, some (now + n * 3600000), usr, true⟩) := by
  unfold Firestore.generateLink
  have h1 : (dn == "" || eh == "") = false := by simp [hdn, heh]
  have he : jsExpiry now eh = some (now + n * 3600000) := by
    simp [jsExpiry, hp]
  simp [h1, hf, he]

/-- The in-memory `insertNew` step with parseable hours. -/
theorem insertNew_success (st : InMemory.MemState) (rn mk : String)
    (now : Int) (lid usr eh : String) (n : Int)
    (hp : parseIntJS eh = some n) :
    InMemory.insertNew st rn mk now lid usr eh =
      (.success (InMemory.trackingUrl lid) (now + n * 3600000) rn,
       ⟨mset st.trackingLinks lid ⟨rn, now, some (now + n * 3600000), usr⟩,
        mset st.driverToLinkId mk lid⟩) := by
  unfold InMemory.insertNew
  have he : jsExpiry now eh = some (now + n * 3600000) := by
    simp [jsExpiry, hp]
  simp [he]

/-- The in-memory `/generate-link` when the driver has no entry in
`driverToLinkId`: it proceeds straight to the insert step. -/
theorem generateLink_mem_fresh (st : InMemory.MemState) (dn eh : String)
    (u : Option (List Driver)) (now : Int) (lid usr : String) (d : Driver)
    (hdn : dn ≠ "") (heh : eh ≠ "")
    (hf : (InMemory.fetchDriversFromAPI u).find? (fun x => x.name == dn) = some d)
    (hg : mget st.driverToLinkId dn = none) :
    InMemory.generateLink st dn eh u now lid usr =
      InMemory.insertNew st d.name dn now lid usr eh := by
  unfold InMemory.generateLink
  have h1 : (dn == "" || eh == "") = false := by simp [hdn, heh]
  simp [h1, hf, hg]

/-- The in-memory `/generate-link` when an unexpired link already
exists for the driver: 400 and no state change. -/
theorem generateLink_mem_exists (st : InMemory.MemState) (dn eh : String)
    (u : Option (List Driver)) (now : Int) (lid usr : String) (d : Driver)
    (elid : String) (l : InMemory.MemLink) (t : Int)
    (hdn : dn ≠ "") (heh : eh ≠ "")
    (hf : (InMemory.fetchDriversFromAPI u).find? (fun x => x.name == dn) = some d)
    (hg : mget st.driverToLinkId dn = some elid) (helid : elid ≠ "")
    (hl : mget st.trackingLinks elid = some l) (ht : l.expiresAt = some t)
    (hnow : now < t) :
    InMemory.generateLink st dn eh u now lid usr =
      (.alreadyExists (InMemory.trackingUrl elid) t, st) := by
  unfold InMemory.generateLink
  have h1 : (dn == "" || eh == "") = false := by simp [hdn, heh]
  simp [h1, hf, hg, helid, hl, ht, hnow]

/-- C2 counterexample: in the in-memory variant, the second sequential
createLink for the mock demo driver (1000 ms after the first, well
before its 1-hour expiry) does not succeed: it is rejected with the 400
`alreadyExists` response and the store is left unchanged, refuting
"succeeds both times". -/
theorem c2_counterexample :
    memFirstCreate.1 =
      InMemory.GenResponse.success (InMemory.trackingUrl "L1") 3600000
        "Albert Davis (Demo)" ∧
    memSecondCreate.1 =
      InMemory.GenResponse.alreadyExists (InMemory.trackingUrl "L1") 3600000 ∧
    memSecondCreate.2 = memFirstCreate.2 := by
  exact ⟨by decide, by decide, by decide⟩

/-- C2 (amended): in the Firestore variant, two sequential createLink
calls for a fetched driver (with valid inputs and distinct generated
ids) both succeed, leave exactly one active record for the driver, and
the record created by the first call ends with `active = false` while
the second call's record is the active one.  In the in-memory variant,
the second sequential call while the first link is unexpired is instead
rejected with the 400 `alreadyExists` response and the state is
unchanged. -/
theorem c2_amended_two_creates :
    (∀ (st : Firestore.Store) (dn eh₁ eh₂ : String)
       (u₁ u₂ : Option (List Driver)) (now₁ now₂ : Int)
       (id₁ id₂ usr₁ usr₂ : String) (d₁ d₂ : Driver) (n₁ n₂ : Int),
      dn ≠ "" → eh₁ ≠ "" → eh₂ ≠ "" →
      (Firestore.fetchDriversFromAPI u₁).find? (fun x => x.name == dn) = some d₁ →
      (Firestore.fetchDriversFromAPI u₂).find? (fun x => x.name == dn) = some d₂ →
      parseIntJS eh₁ = some n₁ → parseIntJS eh₂ = some n₂ → id₁ ≠ id₂ →
      (Firestore.generateLink st dn eh₁ u₁ now₁ id₁ usr₁).1 =
        .success (Firestore.trackingUrl id₁) (now₁ + n₁ * 3600000) dn ∧
      (Firestore.generateLink
          (Firestore.generateLink st dn eh₁ u₁ now₁ id₁ usr₁).2
          dn eh₂ u₂ now₂ id₂ usr₂).1 =
        .success (Firestore.trackingUrl id₂) (now₂ + n₂ * 3600000) dn ∧
      Firestore.countActive
        (Firestore.generateLink
          (Firestore.generateLink st dn eh₁ u₁ now₁ id₁ usr₁).2
          dn eh₂ u₂ now₂ id₂ usr₂).2 dn = 1 ∧
      Firestore.lookupDoc
        (Firestore.generateLink
          (Firestore.generateLink st dn eh₁ u₁ now₁ id₁ usr₁).2
          dn eh₂ u₂ now₂ id₂ usr₂).2 id₁ =
        some ⟨dn, now₁, some (now₁ + n₁ * 3600000), usr₁, false⟩ ∧
      Firestore.lookupDoc
        (Firestore.generateLink
          (Firestore.generateLink st dn eh₁ u₁ now₁ id₁ usr₁).2
          dn eh₂ u₂ now₂ id₂ usr₂).2 id₂ =
        some ⟨dn, now₂, some (now₂ + n₂ * 3600000), usr₂, true⟩) ∧
    (∀ (st : InMemory.MemState) (dn eh₁ eh₂ : String)
       (u₁ u₂ : Option (List Driver)) (now₁ now₂ : Int)
       (id₁ id₂ usr₁ usr₂ : String) (d₁ d₂ : Driver) (n₁ : Int),
      dn ≠ "" → eh₁ ≠ "" → eh₂ ≠ "" → id₁ ≠ "" →
      (InMemory.fetchDriversFromAPI u₁).find? (fun x => x.name == dn) = some d₁ →
      (InMemory.fetchDriversFromAPI u₂).find? (fun x => x.name == dn) = some d₂ →
      parseIntJS eh₁ = some n₁ →
      mget st.driverToLinkId dn = none →
      now₂ < now₁ + n₁ * 3600000 →
      (InMemory.generateLink st dn eh₁ u₁ now₁ id₁ usr₁).1 =
        .success (InMemory.trackingUrl id₁) (now₁ + n₁ * 3600000) dn ∧
      (InMemory.generateLink
          (InMemory.generateLink st dn eh₁ u₁ now₁ id₁ usr₁).2
          dn eh₂ u₂ now₂ id₂ usr₂).1 =
        .alreadyExists (InMemory.trackingUrl id₁) (now₁ + n₁ * 3600000) ∧
      (InMemory.generateLink
          (InMemory.generateLink st dn eh₁ u₁ now₁ id₁ usr₁).2
          dn eh₂ u₂ now₂ id₂ usr₂).2 =
        (InMemory.generateLink st dn eh₁ u₁ now₁ id₁ usr₁).2) := by
  constructor
  · intro st dn eh₁ eh₂ u₁ u₂ now₁ now₂ id₁ id₂ usr₁ usr₂ d₁ d₂ n₁ n₂
    intro hdn heh₁ heh₂ hf₁ hf₂ hp₁ hp₂ hid
    rw [generateLink_success st dn eh₁ u₁ now₁ id₁ usr₁ d₁ n₁ hdn heh₁ hf₁ hp₁]
    rw [generateLink_success _ dn eh₂ u₂ now₂ id₂ usr₂ d₂ n₂ hdn heh₂ hf₂ hp₂]
    dsimp only
    refine ⟨rfl, rfl, ?_, ?_, ?_⟩
    · unfold Firestore.setDoc
      rw [countActive_mset]
      have h0 := countActive_deactivateFor_self
        (mset (Firestore.deactivateFor st dn) id₁
          ⟨dn, now₁, some (now₁ + n₁ * 3600000), usr₁, true⟩) dn
      have hle := countActive_filter_le
        (Firestore.deactivateFor
          (mset (Firestore.deactivateFor st dn) id₁
            ⟨dn, now₁, some (now₁ + n₁ * 3600000), usr₁, true⟩) dn)
        (fun e => e.1 != id₂) dn
      rw [h0] at hle
      simp only [Nat.le_zero] at hle
      rw [hle]
      simp
    · unfold Firestore.lookupDoc Firestore.setDoc
      rw [mget_mset_other _ id₂ id₁ _ hid]
      rw [mget_deactivateFor]
      rw [mget_mset_self]
      simp [Firestore.deactEntry, Firestore.deactivate]
    · unfold Firestore.lookupDoc Firestore.setDoc
      exact mget_mset_self _ id₂ _
  · intro st dn eh₁ eh₂ u₁ u₂ now₁ now₂ id₁ id₂ usr₁ usr₂ d₁ d₂ n₁
    intro hdn heh₁ heh₂ hid₁ hf₁ hf₂ hp₁ hg hnow
    have hd₁ : d₁.name = dn := by
      have hh := List.find?_some hf₁
      simpa using hh
    rw [generateLink_mem_fresh st dn eh₁ u₁ now₁ id₁ usr₁ d₁ hdn heh₁ hf₁ hg]
    rw [insertNew_success st d₁.name dn now₁ id₁ usr₁ eh₁ n₁ hp₁]
    rw [hd₁]
    refine ⟨rfl, ?_, ?_⟩ <;>
      rw [generateLink_mem_exists _ dn eh₂ u₂ now₂ id₂ usr₂ d₂ id₁
        ⟨dn, now₁, some (now₁ + n₁ * 3600000), usr₁⟩ (now₁ + n₁ * 3600000)
        hdn heh₂ hf₂ (mget_mset_self _ dn id₁) hid₁
        (mget_mset_self _ id₁ _) rfl hnow]

/-- Witness for the amended C2 at concrete inputs: two sequential
Firestore creates for the mock demo driver leave one active record and
the first record inactive; the in-memory second create is rejected. -/
theorem c2_amended_two_creates_witness :
    Firestore.countActive
      (Firestore.generateLink
        (Firestore.generateLink [] "Albert Davis (Demo)" "1" none 0 "L1" "admin").2
        "Albert Davis (Demo)" "1" none 1000 "L2" "admin").2
      "Albert Davis (Demo)" = 1 ∧
    Firestore.lookupDoc
      (Firestore.generateLink
        (Firestore.generateLink [] "Albert Davis (Demo)" "1" none 0 "L1" "admin").2
        "Albert Davis (Demo)" "1" none 1000 "L2" "admin").2 "L1" =
      some ⟨"Albert Davis (Demo)", 0, some 3600000, "admin", false⟩ ∧
    (InMemory.generateLink
        (InMemory.generateLink ⟨[], []⟩ "Albert Davis (Demo)" "1" none 0 "L1" "admin").2
        "Albert Davis (Demo)" "1" none 1000 "L2" "admin").1 =
      .alreadyExists (InMemory.trackingUrl "L1") 3600000 := by
  have h := c2_amended_two_creates
  have hA := h.1 [] "Albert Davis (Demo)" "1" "1" none none 0 1000 "L1" "L2"
    "admin" "admin" ⟨"Albert Davis (Demo)", "2025-07-15T17:55:04.913055887Z"⟩
    ⟨"Albert Davis (Demo)", "2025-07-15T17:55:04.913055887Z"⟩ 1 1
    (by decide) (by decide) (by decide) (by decide) (by decide)
    (by decide) (by decide) (by decide)
  have hB := h.2 ⟨[], []⟩ "Albert Davis (Demo)" "1" "1" none none 0 1000 "L1" "L2"
    "admin" "admin" ⟨"Albert Davis (Demo)", "2025-07-15T17:55:04.913055887Z"⟩
    ⟨"Albert Davis (Demo)", "2025-07-15T17:55:04.913055887Z"⟩ 1
    (by decide) (by decide) (by decide) (by decide) (by decide)
    (by decide) (by decide) (by decide) (by decide)
  exact ⟨hA.2.2.1, hA.2.2.2.1, hB.2.1⟩

/-- C3 counterexample: a stored record with `active = false` and a
future `expiresAt` (observed at time 500 < 1000): the page handler
rejects it, but the API handler, which never reads `active`, serves the
driver data — refuting "both endpoints fail whenever active = false". -/
theorem c3_counterexample :
    Firestore.lookupDoc cancelledStore "L" = some cancelledLink ∧
    cancelledLink.active = false ∧
    dateBefore cancelledLink.expiresAt 500 = false ∧
    Firestore.trackPage cancelledStore "L" 500 none =
      Firestore.PageResponse.expiredOrInactive ∧
    Firestore.apiTrack cancelledStore "L" 500 none =
      Firestore.ApiResponse.ok
        ⟨"Albert Davis (Demo)", "2025-07-15T17:55:04.913055887Z"⟩ (some 1000) := by
  exact ⟨by decide, by decide, by decide, by decide, by decide⟩

/-- C3 (amended): for a stored linkId, the /track/:linkId page fails
exactly when `active = false` or now is past `expiresAt`, while the
/api/track/:id endpoint answers its expired error exactly when now is
past `expiresAt`, regardless of `active`: a record with `active = false`
and future `expiresAt` is rejected by the page but not by the API. -/
theorem c3_amended_expiry_checks (st : Firestore.Store) (id : String)
    (now : Int) (u : Option (List Driver)) (link : Firestore.TrackingLink)
    (h : Firestore.lookupDoc st id = some link) :
    (Firestore.trackPage st id now u = .expiredOrInactive ↔
      (link.active = false ∨ dateBefore link.expiresAt now = true)) ∧
    (Firestore.apiTrack st id now u = .expiredLink ↔
      dateBefore link.expiresAt now = true) := by
  unfold Firestore.trackPage Firestore.apiTrack
  rw [h]
  cases ha : link.active <;> cases hb : dateBefore link.expiresAt now <;>
    cases hf : (Firestore.fetchDriversFromAPI u).find?
      (fun d => d.name == link.driverName) <;>
    simp [ha, hb, hf]

/-- Witness for the amended C3: in the concrete cancelled-but-unexpired
store the page rejects and the API does not report expiry. -/
theorem c3_amended_expiry_checks_witness :
    Firestore.trackPage cancelledStore "L" 500 none =
      Firestore.PageResponse.expiredOrInactive ∧
    Firestore.apiTrack cancelledStore "L" 500 none ≠
      Firestore.ApiResponse.expiredLink := by
  have h := c3_amended_expiry_checks cancelledStore "L" 500 none cancelledLink
    (by decide)
  refine ⟨h.1.mpr (Or.inl (by decide)), fun hc => ?_⟩
  exact absurd (h.2.mp hc) (by decide)

/-- C4 counterexample: with the upstream fetch failing, createLink for
the mock driver name succeeds while createLink for another name fails
with the 404 NotFoundError — the outcomes are mixed, refuting "fails
for every requested driver name, consistently". -/
theorem c4_counterexample :
    (Firestore.generateLink [] "Albert Davis (Demo)" "1" none 0 "L1" "admin").1 =
      Firestore.GenResponse.success (Firestore.trackingUrl "L1") 3600000
        "Albert Davis (Demo)" ∧
    (Firestore.generateLink [] "Jane Doe" "1" none 0 "L2" "admin").1 =
      Firestore.GenResponse.driverNotFound := by
  exact ⟨by decide, by decide⟩

/-- C4 (amended): when the upstream fetch fails, fetchDriversFromAPI
falls back to the fixed mock dataset, so createLink succeeds for the
mock driver name (with valid hours) and fails with NotFoundError for
every other name; the outcome depends on the requested name, and no
UpstreamFetchError response exists. -/
theorem c4_amended_fallback (st : Firestore.Store) (name eh : String)
    (now : Int) (lid usr : String)
    (hname : name ≠ "") (heh : eh ≠ "") :
    (∀ n : Int, parseIntJS eh = some n → name = "Albert Davis (Demo)" →
      (Firestore.generateLink st name eh none now lid usr).1 =
        .success (Firestore.trackingUrl lid) (now + n * 3600000) name) ∧
    (name ≠ "Albert Davis (Demo)" →
      (Firestore.generateLink st name eh none now lid usr).1 =
        .driverNotFound) := by
  constructor
  · intro n hp hm
    subst hm
    rw [generateLink_success st _ eh none now lid usr
      ⟨"Albert Davis (Demo)", "2025-07-15T17:55:04.913055887Z"⟩ n
      (by decide) heh (by decide) hp]
  · intro hm
    unfold Firestore.generateLink
    have h1 : (name == "" || eh == "") = false := by simp [hname, heh]
    have hne : (("Albert Davis (Demo)" : String) == name) = false := by
      simp [Ne.symm hm]
    have hf : (Firestore.fetchDriversFromAPI none).find?
        (fun x => x.name == name) = none := by
      simp [Firestore.fetchDriversFromAPI, Firestore.mockDrivers,
        List.find?, hne]
    simp [h1, hf]

/-- Witness for the amended C4: concrete mixed outcomes during an
upstream outage. -/
theorem c4_amended_fallback_witness :
    (Firestore.generateLink [] "Albert Davis (Demo)" "2" none 0 "L1" "admin").1 =
      Firestore.GenResponse.success (Firestore.trackingUrl "L1") 7200000
        "Albert Davis (Demo)" ∧
    (Firestore.generateLink [] "Jane Doe" "2" none 0 "L1" "admin").1 =
      Firestore.GenResponse.driverNotFound := by
  have h1 := c4_amended_fallback [] "Albert Davis (Demo)" "2" 0 "L1" "admin"
    (by decide) (by decide)
  have h2 := c4_amended_fallback [] "Jane Doe" "2" 0 "L1" "admin"
    (by decide) (by decide)
  exact ⟨h1.1 2 (by decide) rfl, h2.2 (by decide)⟩

/-- Lookup through the Firestore sweep. -/
theorem mget_sweepExpired (st : Firestore.Store) (now : Int) (id : String) :
    mget (Firestore.sweepExpiredLinks now st) id =
      (mget st id).map (Firestore.sweepEntry now) := by
  unfold Firestore.sweepExpiredLinks
  exact mget_map_value st (Firestore.sweepEntry now) id

/-- C5 counterexample: in the in-memory variant, cancelLink physically
deletes the driver's TrackingLink record — the map is empty afterwards,
so the set of stored link identifiers shrinks, refuting "each only
sets active to false on existing records". -/
theorem c5_counterexample :
    mget janeState.trackingLinks "L1" =
      some ⟨"Jane Doe", 0, some 3600000, "admin"⟩ ∧
    (InMemory.cancelLink janeState "Jane Doe").1 =
      InMemory.CancelResponse.success ∧
    (InMemory.cancelLink janeState "Jane Doe").2.trackingLinks = [] := by
  exact ⟨by decide, by decide, by decide⟩

/-- C5 (amended): in the Firestore variant no controller operation
removes a document — a stored linkId still resolves after any create,
cancel or sweep.  In the in-memory variant cancelLink deletes the
driver's stored record and the sweep deletes every expired record. -/
theorem c5_amended_no_deletion :
    (∀ (op : Firestore.Op) (st : Firestore.Store) (id : String),
      (Firestore.lookupDoc st id).isSome = true →
      (Firestore.lookupDoc (Firestore.applyOp st op) id).isSome = true) ∧
    (∀ (st : InMemory.MemState) (dn lid : String),
      mget st.driverToLinkId dn = some lid → lid ≠ "" →
      (mget st.trackingLinks lid).isSome = true →
      mget (InMemory.cancelLink st dn).2.trackingLinks lid = none) ∧
    (∀ (st : InMemory.MemState) (now : Int)
       (e : String × InMemory.MemLink),
      e ∈ (InMemory.sweepExpiredLinks now st).trackingLinks →
      dateBefore e.2.expiresAt now = false) := by
  refine ⟨?_, ?_, ?_⟩
  · intro op st id hid
    cases op with
    | create dn eh u now lid usr =>
      show (Firestore.lookupDoc
        (Firestore.generateLink st dn eh u now lid usr).2 id).isSome = true
      rcases generateLink_store_cases st dn eh u now lid usr with hs | hs
      · rw [hs]; exact hid
      · rw [hs]
        unfold Firestore.lookupDoc Firestore.setDoc
        by_cases he : id = lid
        · subst he
          rw [mget_mset_self]
          rfl
        · rw [mget_mset_other _ lid id _ he, mget_deactivateFor]
          unfold Firestore.lookupDoc at hid
          cases hm : mget st id with
          | none => rw [hm] at hid; simp at hid
          | some r => rfl
    | cancel dn =>
      show (Firestore.lookupDoc (Firestore.cancelLink st dn).2 id).isSome = true
      rcases cancelLink_store_cases st dn with hs | hs
      · rw [hs]; exact hid
      · rw [hs]
        unfold Firestore.lookupDoc
        rw [mget_deactivateFor]
        unfold Firestore.lookupDoc at hid
        cases hm : mget st id with
        | none => rw [hm] at hid; simp at hid
        | some r => rfl
    | sweep now =>
      show (Firestore.lookupDoc (Firestore.sweepExpiredLinks now st) id).isSome = true
      unfold Firestore.lookupDoc
      rw [mget_sweepExpired]
      unfold Firestore.lookupDoc at hid
      cases hm : mget st id with
      | none => rw [hm] at hid; simp at hid
      | some r => rfl
  · intro st dn lid hdl hne hsome
    unfold InMemory.cancelLink
    rw [hdl]
    have h1 : (lid == "") = false := by simp [hne]
    have h2 : (mget st.trackingLinks lid).isNone = false := by
      cases hm : mget st.trackingLinks lid with
      | none => rw [hm] at hsome; simp at hsome
      | some r => rfl
    simp only [h1, Bool.false_eq_true, if_false, h2]
    exact mget_mdel_self _ lid
  · intro st now e he
    unfold InMemory.sweepExpiredLinks at he
    have hmem := List.mem_filter.mp he
    have hp := hmem.2
    simp only [Bool.not_eq_true'] at hp
    exact hp

/-- Witness for the amended C5: the cancelled-but-stored Firestore
record survives a cancel operation, while the in-memory cancel deletes
the stored record. -/
theorem c5_amended_no_deletion_witness :
    (Firestore.lookupDoc
      (Firestore.applyOp cancelledStore
        (Firestore.Op.cancel "Albert Davis (Demo)")) "L").isSome = true ∧
    mget (InMemory.cancelLink janeState "Jane Doe").2.trackingLinks "L1" =
      none := by
  have h := c5_amended_no_deletion
  exact ⟨h.1 (Firestore.Op.cancel "Albert Davis (Demo)") cancelledStore "L"
      (by decide),
    h.2.1 janeState "Jane Doe" "L1" (by decide) (by decide) (by decide)⟩

/-- The sweep's per-document update is idempotent. -/
theorem sweepEntry_idem (now : Int) (r : Firestore.TrackingLink) :
    Firestore.sweepEntry now (Firestore.sweepEntry now r) =
      Firestore.sweepEntry now r := by
  unfold Firestore.sweepEntry Firestore.deactivate
  cases hb : (r.active && dateBefore r.expiresAt now) <;> simp [hb]

/-- C6: the sweep keeps every document in place, deactivates exactly
the documents with `active = true` and `expiresAt` earlier than now,
leaves every other document unchanged, and running it again at the same
time changes nothing (idempotence). -/
theorem c6_sweep_exactness (now : Int) (st : Firestore.Store) :
    (Firestore.sweepExpiredLinks now st).length = st.length ∧
    (∀ (i : Nat) (e : String × Firestore.TrackingLink), st[i]? = some e →
      (e.2.active = true → dateBefore e.2.expiresAt now = true →
        (Firestore.sweepExpiredLinks now st)[i]? =
          some (e.1, Firestore.deactivate e.2)) ∧
      ((e.2.active && dateBefore e.2.expiresAt now) = false →
        (Firestore.sweepExpiredLinks now st)[i]? = some e)) ∧
    Firestore.sweepExpiredLinks now (Firestore.sweepExpiredLinks now st) =
      Firestore.sweepExpiredLinks now st := by
  refine ⟨List.length_map st _, ?_, ?_⟩
  · intro i e he
    unfold Firestore.sweepExpiredLinks
    rw [List.getElem?_map, he]
    constructor
    · intro ha hb
      simp [Firestore.sweepEntry, ha, hb]
    · intro hab
      show some (e.1, Firestore.sweepEntry now e.2) = some e
      unfold Firestore.sweepEntry
      rw [hab]
      rfl
  · unfold Firestore.sweepExpiredLinks
    rw [List.map_map]
    apply List.map_congr_left
    intro e _
    simp only [Function.comp]
    rw [sweepEntry_idem]

/-- Witness for C6 on the spec's three-record scenario at time 50: the
two expired active records are deactivated, the unexpired one is
untouched, and a second sweep is a no-op. -/
theorem c6_sweep_exactness_witness :
    (Firestore.sweepExpiredLinks 50 sweepScenario)[0]? =
      some ("A", ⟨"d1", 0, some 10, "u", false⟩) ∧
    (Firestore.sweepExpiredLinks 50 sweepScenario)[1]? =
      some ("B", ⟨"d2", 0, some 20, "u", false⟩) ∧
    (Firestore.sweepExpiredLinks 50 sweepScenario)[2]? =
      some ("C", ⟨"d3", 0, some 99999, "u", true⟩) ∧
    Firestore.sweepExpiredLinks 50 (Firestore.sweepExpiredLinks 50 sweepScenario) =
      Firestore.sweepExpiredLinks 50 sweepScenario := by
  have h := c6_sweep_exactness 50 sweepScenario
  refine ⟨?_, ?_, ?_, h.2.2⟩
  · exact (h.2.1 0 ("A", ⟨"d1", 0, some 10, "u", true⟩) (by decide)).1 rfl
      (by decide)
  · exact (h.2.1 1 ("B", ⟨"d2", 0, some 20, "u", true⟩) (by decide)).1 rfl
      (by decide)
  · exact (h.2.1 2 ("C", ⟨"d3", 0, some 99999, "u", true⟩) (by decide)).2
      (by decide)

/-- C7: cancelLink answers the 404 NotFoundError exactly when the
driver has no active record; otherwise it reports success and the
resulting store is the deactivation of every matching active record
(tolerating several matches), with every other driver's active count
unchanged. -/
theorem c7_cancel_exact (st : Firestore.Store) (dn : String) :
    ((Firestore.cancelLink st dn).1 = .notFound ↔
      Firestore.countActive st dn = 0) ∧
    (Firestore.countActive st dn ≠ 0 →
      (Firestore.cancelLink st dn).1 = .success ∧
      (Firestore.cancelLink st dn).2 = Firestore.deactivateFor st dn ∧
      Firestore.countActive (Firestore.cancelLink st dn).2 dn = 0 ∧
      ∀ m, m ≠ dn →
        Firestore.countActive (Firestore.cancelLink st dn).2 m =
          Firestore.countActive st m) := by
  unfold Firestore.cancelLink
  by_cases hs :
      (st.filter (fun e => e.2.driverName == dn && e.2.active)).isEmpty = true
  · have h0 : Firestore.countActive st dn = 0 := by
      unfold Firestore.countActive
      rw [List.isEmpty_iff] at hs
      rw [hs]
      rfl
    simp only [if_pos hs]
    simp [h0]
  · have h0 : Firestore.countActive st dn ≠ 0 := by
      unfold Firestore.countActive
      intro hc
      rw [List.length_eq_zero] at hc
      rw [hc] at hs
      simp at hs
    simp only [if_neg hs]
    refine ⟨by simp [h0], fun _ => ⟨trivial, trivial,
      countActive_deactivateFor_self st dn,
      fun m hm => countActive_deactivateFor_other st dn m hm⟩⟩

/-- Witness for C7 on a store with two active records for the same
driver: cancel succeeds, deactivates both, leaves the other driver's
count unchanged, and cancel of a driver with no active record answers
NotFoundError. -/
theorem c7_cancel_exact_witness :
    (Firestore.cancelLink dupStore "dup").1 =
      Firestore.CancelResponse.success ∧
    Firestore.countActive dupStore "dup" = 2 ∧
    Firestore.countActive (Firestore.cancelLink dupStore "dup").2 "dup" = 0 ∧
    Firestore.countActive (Firestore.cancelLink dupStore "dup").2 "other" =
      Firestore.countActive dupStore "other" ∧
    (Firestore.cancelLink dupStore "missing").1 =
      Firestore.CancelResponse.notFound := by
  have h := c7_cancel_exact dupStore "dup"
  have h2 := c7_cancel_exact dupStore "missing"
  have hne : Firestore.countActive dupStore "dup" ≠ 0 := by decide
  exact ⟨(h.2 hne).1, by decide, (h.2 hne).2.2.1,
    (h.2 hne).2.2.2 "other" (by decide), h2.1.mpr (by decide)⟩

/-- C8: in the in-memory /track/:id handler, when the stored link is
valid and unexpired but no fetched driver matches its driverName, the
field access `driver.last_updated` throws before the driver-missing
check runs, so the request renders the catch branch
("Unable to fetch current driver location"); the
"Driver data not available" branch is unreachable for every input. -/
theorem c8_driver_missing_unreachable :
    (∀ (st : InMemory.MemState) (lid : String) (now : Int)
       (u : Option (List Driver)) (link : InMemory.MemLink),
      mget st.trackingLinks lid = some link →
      dateBefore link.expiresAt now = false →
      (InMemory.fetchDriversFromAPI u).find?
        (fun d => d.name == link.driverName) = none →
      InMemory.trackPage st lid now u = .unableToFetch) ∧
    (∀ (st : InMemory.MemState) (lid : String) (now : Int)
       (u : Option (List Driver)),
      InMemory.trackPage st lid now u ≠ .driverDataNotAvailable) := by
  constructor
  · intro st lid now u link hm hexp hf
    unfold InMemory.trackPage
    rw [hm]
    simp only [hexp, Bool.false_eq_true, if_false]
    unfold InMemory.trackTryBlock
    rw [hf]
    rfl
  · intro st lid now u
    unfold InMemory.trackPage
    cases hm : mget st.trackingLinks lid with
    | none => simp
    | some link =>
      cases hexp : dateBefore link.expiresAt now with
      | true => simp [hexp]
      | false =>
        simp only [hexp, Bool.false_eq_true, if_false]
        unfold InMemory.trackTryBlock
        cases hf : (InMemory.fetchDriversFromAPI u).find?
            (fun d => d.name == link.driverName) with
        | none => simp [hf, InMemory.jsLastUpdated]
        | some d => simp [hf, InMemory.jsLastUpdated]

/-- Witness for C8: a valid unexpired link whose driver is absent from
an (empty but well-formed) upstream driver list renders the catch
branch, not the driver-missing page. -/
theorem c8_driver_missing_unreachable_witness :
    InMemory.trackPage ghostState "L1" 0 (some []) =
      InMemory.TrackRender.unableToFetch ∧
    InMemory.trackPage ghostState "L1" 0 (some []) ≠
      InMemory.TrackRender.driverDataNotAvailable := by
  have h := c8_driver_missing_unreachable
  exact ⟨h.1 ghostState "L1" 0 (some [])
      ⟨"Ghost Driver", 0, some 100, "admin"⟩ (by decide) (by decide) (by decide),
    h.2 ghostState "L1" 0 (some [])⟩

/-- C9 counterexample: with `expirationHours = "abc"`, the in-memory
create stores a record with an invalid expiresAt, but the response is
the 500 serverError (toISOString throws on an Invalid Date) — refuting
"returned without any error". -/
theorem c9_counterexample :
    (InMemory.generateLink ⟨[], []⟩ "Albert Davis (Demo)" "abc" none 0
      "L1" "admin").1 = InMemory.GenResponse.serverError ∧
    mget (InMemory.generateLink ⟨[], []⟩ "Albert Davis (Demo)" "abc" none 0
      "L1" "admin").2.trackingLinks "L1" =
      some ⟨"Albert Davis (Demo)", 0, none, "admin"⟩ := by
  exact ⟨by decide, by decide⟩

/-- C9 (amended): the input check accepts any truthy expirationHours —
"2.5" is truncated by parseInt to 2 — and a non-numeric string passes
validation and yields NaN; the in-memory variant stores a record with
an invalid expiresAt, but serializing the response throws, so both
variants answer the 500 serverError instead of succeeding silently. -/
theorem c9_amended_invalid_hours :
    parseIntJS "2.5" = some 2 ∧
    ∀ (eh : String) (now : Int) (lid usr : String),
      eh ≠ "" → parseIntJS eh = none →
      (InMemory.generateLink ⟨[], []⟩ "Albert Davis (Demo)" eh none now
        lid usr).1 = InMemory.GenResponse.serverError ∧
      mget (InMemory.generateLink ⟨[], []⟩ "Albert Davis (Demo)" eh none now
        lid usr).2.trackingLinks lid =
        some ⟨"Albert Davis (Demo)", now, none, usr⟩ ∧
      (Firestore.generateLink [] "Albert Davis (Demo)" eh none now
        lid usr).1 = Firestore.GenResponse.serverError := by
  refine ⟨by decide, ?_⟩
  intro eh now lid usr heh hp
  have he : jsExpiry now eh = none := by simp [jsExpiry, hp]
  have hf : (InMemory.fetchDriversFromAPI none).find?
      (fun x => x.name == "Albert Davis (Demo)") =
      some ⟨"Albert Davis (Demo)", "2025-07-15T17:55:04.913055887Z"⟩ := by
    decide
  rw [generateLink_mem_fresh ⟨[], []⟩ "Albert Davis (Demo)" eh none now lid usr
    ⟨"Albert Davis (Demo)", "2025-07-15T17:55:04.913055887Z"⟩
    (by decide) heh hf (by decide)]
  refine ⟨?_, ?_, ?_⟩
  · simp [InMemory.insertNew, he]
  · simp only [InMemory.insertNew, he]
    exact mget_mset_self _ lid _
  · unfold Firestore.generateLink
    have h1 : (("Albert Davis (Demo)" : String) == "" || eh == "") = false := by
      simp [heh]
    have hf2 : (Firestore.fetchDriversFromAPI none).find?
        (fun x => x.name == "Albert Davis (Demo)") =
        some ⟨"Albert Davis (Demo)", "2025-07-15T17:55:04.913055887Z"⟩ := by
      decide
    simp [h1, hf2, he, heh]

/-- Witness for the amended C9 at `expirationHours = "xyz"`. -/
theorem c9_amended_invalid_hours_witness :
    (InMemory.generateLink ⟨[], []⟩ "Albert Davis (Demo)" "xyz" none 5
      "L9" "admin").1 = InMemory.GenResponse.serverError ∧
    mget (InMemory.generateLink ⟨[], []⟩ "Albert Davis (Demo)" "xyz" none 5
      "L9" "admin").2.trackingLinks "L9" =
      some ⟨"Albert Davis (Demo)", 5, none, "admin"⟩ ∧
    (Firestore.generateLink [] "Albert Davis (Demo)" "xyz" none 5
      "L9" "admin").1 = Firestore.GenResponse.serverError := by
  have h := c9_amended_invalid_hours
  exact h.2 "xyz" 5 "L9" "admin" (by decide) (by decide)

/-- C10: cancelLink performs no input validation: with a missing or
empty driverName (both falsy, modelled as `""`) the active-records
query comes back empty and the handler answers the 404 NotFoundError
with the store untouched; no input ever yields the 400 status of a
ValidationError, in either variant. -/
theorem c10_cancel_no_validation :
    (∀ st : Firestore.Store, Firestore.countActive st "" = 0 →
      (Firestore.cancelLink st "").1 = Firestore.CancelResponse.notFound ∧
      Firestore.cancelStatus (Firestore.cancelLink st "").1 = 404 ∧
      (Firestore.cancelLink st "").2 = st) ∧
    (∀ (st : Firestore.Store) (dn : String),
      Firestore.cancelStatus (Firestore.cancelLink st dn).1 ≠ 400) ∧
    (∀ st : InMemory.MemState, mget st.driverToLinkId "" = none →
      (InMemory.cancelLink st "").1 = InMemory.CancelResponse.notFound) ∧
    (∀ (st : InMemory.MemState) (dn : String),
      InMemory.cancelStatus (InMemory.cancelLink st dn).1 ≠ 400) := by
  refine ⟨?_, ?_, ?_, ?_⟩
  · intro st h0
    have hs : (st.filter (fun e => e.2.driverName == "" && e.2.active)).isEmpty
        = true := by
      unfold Firestore.countActive at h0
      rw [List.length_eq_zero] at h0
      rw [List.isEmpty_iff]
      exact h0
    unfold Firestore.cancelLink
    simp [if_pos hs, Firestore.cancelStatus]
  · intro st dn
    unfold Firestore.cancelLink
    by_cases hs : (st.filter
        (fun e => e.2.driverName == dn && e.2.active)).isEmpty = true
    · simp [if_pos hs, Firestore.cancelStatus]
    · simp [if_neg hs, Firestore.cancelStatus]
  · intro st h
    unfold InMemory.cancelLink
    rw [h]
  · intro st dn
    unfold InMemory.cancelLink
    cases hg : mget st.driverToLinkId dn with
    | none => simp [InMemory.cancelStatus]
    | some lid =>
      by_cases h1 : (lid == "") = true
      · simp [h1, InMemory.cancelStatus]
      · simp only [h1, Bool.false_eq_true, if_false]
        cases h2 : (mget st.trackingLinks lid).isNone with
        | true => simp [h1, h2, InMemory.cancelStatus]
        | false => simp [h1, h2, InMemory.cancelStatus]

/-- Witness for C10: empty driverName yields the 404 NotFoundError, not
a 400, in both variants. -/
theorem c10_cancel_no_validation_witness :
    (Firestore.cancelLink [] "").1 = Firestore.CancelResponse.notFound ∧
    Firestore.cancelStatus (Firestore.cancelLink [] "").1 = 404 ∧
    Firestore.cancelStatus (Firestore.cancelLink dupStore "dup").1 ≠ 400 ∧
    (InMemory.cancelLink ⟨[], []⟩ "").1 = InMemory.CancelResponse.notFound ∧
    InMemory.cancelStatus (InMemory.cancelLink janeState "Jane Doe").1 ≠ 400 := by
  have h := c10_cancel_no_validation
  exact ⟨(h.1 [] (by decide)).1, (h.1 [] (by decide)).2.1,
    h.2.1 dupStore "dup", h.2.2.1 ⟨[], []⟩ (by decide),
    h.2.2.2 janeState "Jane Doe"⟩
